import Mathlib

/-!
Shallow embedding of the AutoBrain orchestration graph
(`src/packages/orchestrator/graph.py`): the `GraphState` record, the four
agent nodes (router, retrieve, synthesize, action), the LLM provider layer,
and the two entry points `run_graph` (batch) and `run_graph_stream`
(streaming).  The LLM backend is modelled as an oracle parameter: a function
from (system prompt, user prompt, max_tokens) to the returned text.
-/

namespace AutoBrain

/-! ## Python string primitives used by the source -/

/-- Model of Python `str.strip()`: drop leading and trailing whitespace. -/
def pyStrip (s : String) : String :=
  ⟨((s.data.dropWhile Char.isWhitespace).reverse.dropWhile Char.isWhitespace).reverse⟩

/-- Model of Python `str.lower()`: lower-case every character. -/
def pyLower (s : String) : String :=
  ⟨s.data.map Char.toLower⟩

/-- Helper for `pySplit`: split a character list on runs of whitespace,
`acc` is the (reversed) current word. -/
def splitWsAux : List Char → List Char → List (List Char)
  | [], acc => if acc.isEmpty then [] else [acc.reverse]
  | c :: cs, acc =>
    if c.isWhitespace then
      if acc.isEmpty then splitWsAux cs [] else acc.reverse :: splitWsAux cs []
    else splitWsAux cs (c :: acc)

/-- Model of Python `str.split()` with no argument: maximal runs of
non-whitespace characters; a whitespace-only string yields `[]`. -/
def pySplit (s : String) : List String :=
  (splitWsAux s.data []).map fun l => ⟨l⟩

/-- Model of Python `" ".join(ws)`. -/
def spaceJoin : List String → String
  | [] => ""
  | [w] => w
  | w :: ws => w ++ " " ++ spaceJoin ws

/-- Groups of five consecutive elements, the last group possibly shorter:
the slices `words[i:i+5]` of `for i in range(0, len(words), 5)`.  (Stated
in slice form by `chunksOf5_ne_nil` below.) -/
def chunksOf5 {α : Type} : List α → List (List α)
  | [] => []
  | a :: b :: c :: d :: e :: f :: rest => [a, b, c, d, e] :: chunksOf5 (f :: rest)
  | l => [l]

/-- The answer chunks of the streaming loop: each group of five words joined
by single spaces (`" ".join(words[i:i+5])`). -/
def chunkWords (ws : List String) : List String :=
  (chunksOf5 ws).map spaceJoin

/-! ## Data model -/

/-- Python `dict` with string keys and values, as an ordered association
list with unique keys. -/
abbrev Dict := List (String × String)

/-- Model of Python `d[k] = v`: replace the first binding of `k`, or append
a new binding at the end. -/
def setKey : Dict → String → String → Dict
  | [], k, v => [(k, v)]
  | (k', v') :: d, k, v =>
    if k' == k then (k, v) :: d else (k', v') :: setKey d k v

/-- A retrieved document (`{id, content, source, score}`); the score is an
exact rational since the code only ever copies it. -/
structure ScoredDocument where
  id : String
  content : String
  source : String
  score : ℚ
  deriving DecidableEq, Repr

/-- A citation entry (`{id, source, score}`), the projection of a
`ScoredDocument` built by `retrieve_node`. -/
structure SourceRef where
  id : String
  source : String
  score : ℚ
  deriving DecidableEq, Repr

/-- The `GraphState` dataclass threaded through every node. -/
structure GraphState where
  org_id : String
  conversation_id : String
  query : String
  route : String := ""
  retrieved_docs : List ScoredDocument := []
  answer : String := ""
  sources : List SourceRef := []
  metadata : Dict := []
  tools : List String := []
  deriving DecidableEq, Repr

/-- The `ctx` dictionary handed to the entry points: `org_id`,
`conversation_id` and the optional `tools` list. -/
structure Ctx where
  org_id : String
  conversation_id : String
  tools : List String
  deriving DecidableEq, Repr

/-- The record returned by `run_graph`: `{answer, sources, metadata}`. -/
structure GraphResult where
  answer : String
  sources : List SourceRef
  metadata : Dict
  deriving DecidableEq, Repr

/-- One event yielded by `run_graph_stream`, tagged by its `type` field. -/
inductive Event where
  | routing (content : String)
  | route (content : String)
  | retrieving (content : String)
  | sources (content : List SourceRef)
  | thinking (content : String)
  | answer (content : String)
  | complete (content : String) (metadata : Dict)
  deriving DecidableEq, Repr

/-- The `type` field of an event. -/
def eventType : Event → String
  | .routing _ => "routing"
  | .route _ => "route"
  | .retrieving _ => "retrieving"
  | .sources _ => "sources"
  | .thinking _ => "thinking"
  | .answer _ => "answer"
  | .complete _ _ => "complete"

/-- The contents of the `answer`-type events of a stream, in order. -/
def answerContents (evs : List Event) : List String :=
  evs.filterMap fun e => match e with | .answer c => some c | _ => none

/-- The contents of the `sources`-type events of a stream, in order. -/
def sourcesContents (evs : List Event) : List (List SourceRef) :=
  evs.filterMap fun e => match e with | .sources c => some c | _ => none

/-- The `(content, metadata)` payloads of the `complete`-type events of a
stream, in order. -/
def completeContents (evs : List Event) : List (String × Dict) :=
  evs.filterMap fun e => match e with | .complete c m => some (c, m) | _ => none

/-! ## LLM provider layer -/

/-- The total completion capability a node sees:
(system prompt, user prompt, max_tokens) to returned text. -/
abbrev Llm := String → String → Nat → String

/-- A raw provider call: returns the completion text or raises (is an
`Except.error` carrying the exception message). -/
abbrev PCall := String → String → Nat → Except String String

/-- Body of `LLMProvider._openai_completion`: the provider call is wrapped
in try/except and a failure becomes the error-describing string. -/
def openai_completion (call : PCall) (system user : String) (maxTokens : Nat) : String :=
  match call system user maxTokens with
  | .ok text => text
  | .error e => "Error calling OpenAI: " ++ e

/-- Body of `LLMProvider._anthropic_completion`, same try/except shape. -/
def anthropic_completion (call : PCall) (system user : String) (maxTokens : Nat) : String :=
  match call system user maxTokens with
  | .ok text => text
  | .error e => "Error calling Anthropic: " ++ e

/-- `LLMProvider.completion`: dispatch on the configured provider name,
any unknown name falling back to the OpenAI branch. -/
def completion (provider : String) (ocall acall : PCall)
    (system user : String) (maxTokens : Nat) : String :=
  if provider == "openai" then openai_completion ocall system user maxTokens
  else if provider == "anthropic" then anthropic_completion acall system user maxTokens
  else openai_completion ocall system user maxTokens

/-- The `Llm` oracle induced by a provider configuration. -/
def llmOf (provider : String) (ocall acall : PCall) : Llm :=
  fun system user maxTokens => completion provider ocall acall system user maxTokens

/-! ## Prompts (verbatim from the source) -/

/-- System prompt of `router_node`. -/
def routerSystem : String :=
  "You are a routing agent. Classify the user's query into one of:\n- 'qa': Question answering from knowledge base\n- 'summarize': Summarization task\n- 'action': Action/task execution (send email, create task, etc.)\n\nRespond with just the category name."

/-- System prompt of `synthesize_node`. -/
def synthesizeSystem : String :=
  "You are a helpful AI assistant. Use the provided context to answer the user's question.\nIf the context doesn't contain relevant information, say so clearly.\nProvide concise, accurate answers with citations to source documents."

/-- System prompt of `action_node`. -/
def actionSystem : String :=
  "You are an action execution agent. Based on the user's request, \ndetermine what action to take and provide a response."

/-- The context block of `synthesize_node`: each document's content labeled
by its 1-based position, joined by blank lines. -/
def buildContext (docs : List ScoredDocument) : String :=
  String.intercalate "\n\n" (docs.enum.map fun p =>
    "Document " ++ toString (p.1 + 1) ++ ": " ++ p.2.content)

/-- The user prompt of `synthesize_node`. -/
def synthUserPrompt (docs : List ScoredDocument) (query : String) : String :=
  "Context:\n" ++ buildContext docs ++ "\n\nQuestion: " ++ query ++
    "\n\nProvide a helpful answer based on the context above."

/-- The user prompt of `action_node`. -/
def actionUserPrompt (query : String) : String :=
  "User wants to: " ++ query ++ "\n\nSimulate the action and respond."

/-! ## Agent nodes -/

/-- `router_node`: one completion call, normalize (strip + lower), default
to `qa` when the text is not one of the three labels, record the route in
`metadata["route"]`. -/
def router_node (llm : Llm) (state : GraphState) : GraphState :=
  let route := llm routerSystem state.query 50
  let route := pyLower (pyStrip route)
  let route :=
    if route == "qa" || route == "summarize" || route == "action" then route else "qa"
  { state with route := route, metadata := setKey state.metadata "route" route }

/-- The first mock document's score `0.95`, as the reduced fraction
`19/20` (constructed explicitly so that it evaluates definitionally;
`score_doc1_val` below states that it equals `95 / 100`). -/
def score_doc1 : ℚ := ⟨19, 20, by norm_num, by norm_num⟩

/-- The second mock document's score `0.87`, as the reduced fraction
`87/100`. -/
def score_doc2 : ℚ := ⟨87, 100, by norm_num, by norm_num⟩

/-- The `mock_docs` literal of `retrieve_node`. -/
def mock_docs : List ScoredDocument :=
  [{ id := "doc1",
     content := "AutoBrain is a knowledge assistant that helps teams stay organized and informed.",
     source := "docs", score := score_doc1 },
   { id := "doc2",
     content := "The system uses RAG (Retrieval Augmented Generation) to provide accurate answers.",
     source := "docs", score := score_doc2 }]

/-- `retrieve_node`: store the mock documents and their
`{id, source, score}` projections. -/
def retrieve_node (state : GraphState) : GraphState :=
  { state with
    retrieved_docs := mock_docs,
    sources := mock_docs.map fun d => { id := d.id, source := d.source, score := d.score } }

/-- The citation list built by `retrieve_node` from `mock_docs`. -/
def mockSources : List SourceRef :=
  mock_docs.map fun d => { id := d.id, source := d.source, score := d.score }

/-- `synthesize_node`: one completion call over the retrieved context. -/
def synthesize_node (llm : Llm) (state : GraphState) : GraphState :=
  let answer := llm synthesizeSystem (synthUserPrompt state.retrieved_docs state.query) 500
  { state with answer := answer }

/-- `action_node`: one completion call simulating the action, and
`metadata["action_taken"] = "simulated"`. -/
def action_node (llm : Llm) (state : GraphState) : GraphState :=
  let answer := llm actionSystem (actionUserPrompt state.query) 300
  { state with answer := answer, metadata := setKey state.metadata "action_taken" "simulated" }

/-! ## Graph engine -/

/-- The initial `GraphState` built by both entry points. -/
def initState (ctx : Ctx) (query : String) : GraphState :=
  { org_id := ctx.org_id, conversation_id := ctx.conversation_id, query := query,
    route := "", retrieved_docs := [], answer := "", sources := [], metadata := [],
    tools := ctx.tools }

/-- `route_condition` of `build_graph`: the conditional edge out of the
router; `"__end__"` stands for LangGraph's `END`. -/
def route_condition (state : GraphState) : String :=
  if state.route == "qa" then "retrieve"
  else if state.route == "summarize" then "synthesize"
  else if state.route == "action" then "action"
  else "__end__"

/-- The fallback pipeline of `run_graph`, executed when the LangGraph
library is not importable (`graph is None`). -/
def fallback_pipeline (llm : Llm) (state : GraphState) : GraphState :=
  let state := router_node llm state
  if state.route == "qa" || state.route == "summarize" then
    synthesize_node llm (retrieve_node state)
  else
    action_node llm state

/-- Execution of the compiled LangGraph built by `build_graph`, under the
standard `StateGraph` semantics: start at the entry node `router`, follow
the conditional edge `route_condition` (with mapping retrieve, synthesize,
action, END to themselves), then the static edges retrieve to synthesize,
synthesize to END and action to END. -/
def langgraph_pipeline (llm : Llm) (state : GraphState) : GraphState :=
  let state := router_node llm state
  match route_condition state with
  | "retrieve" => synthesize_node llm (retrieve_node state)
  | "synthesize" => synthesize_node llm state
  | "action" => action_node llm state
  | _ => state

/-- The `{answer, sources, metadata}` record returned by `run_graph`. -/
def extractResult (state : GraphState) : GraphResult :=
  { answer := state.answer, sources := state.sources, metadata := state.metadata }

/-- `run_graph`: batch entry point; `lgAvailable` says whether the
LangGraph library imported (so whether `build_graph` returned a compiled
graph rather than `None`). -/
def run_graph (lgAvailable : Bool) (llm : Llm) (ctx : Ctx) (query : String) : GraphResult :=
  let state := initState ctx query
  extractResult
    (if lgAvailable then langgraph_pipeline llm state else fallback_pipeline llm state)

/-- `run_graph_stream`: streaming entry point, as the finite list of the
events it yields, in order. -/
def run_graph_stream (llm : Llm) (ctx : Ctx) (query : String) : List Event :=
  let state := initState ctx query
  let state := router_node llm state
  let routedEvents :=
    [Event.routing "Analyzing your query...", Event.route ("Route: " ++ state.route)]
  let p :=
    if state.route == "qa" || state.route == "summarize" then
      let state := retrieve_node state
      ([Event.retrieving "Searching knowledge base...", Event.sources state.sources], state)
    else ([], state)
  let retrieveEvents := p.1
  let state := p.2
  let state :=
    if state.route == "qa" || state.route == "summarize" then synthesize_node llm state
    else action_node llm state
  routedEvents ++ retrieveEvents ++ [Event.thinking "Generating answer..."]
    ++ (chunkWords (pySplit state.answer)).map Event.answer
    ++ [Event.complete state.answer state.metadata]

/-- The state in which the streaming run finishes (the one whose answer and
metadata the `complete` event carries). -/
def streamFinalState (llm : Llm) (ctx : Ctx) (query : String) : GraphState :=
  let s1 := router_node llm (initState ctx query)
  if s1.route == "qa" || s1.route == "summarize" then
    synthesize_node llm (retrieve_node s1)
  else
    action_node llm s1

/-! ## Reachability and the docs/sources invariant -/

/-- States reachable in a run: the initial state, closed under applying any
of the four nodes. -/
inductive Reachable (llm : Llm) (ctx : Ctx) (query : String) : GraphState → Prop where
  | init : Reachable llm ctx query (initState ctx query)
  | router {s} : Reachable llm ctx query s → Reachable llm ctx query (router_node llm s)
  | retrieve {s} : Reachable llm ctx query s → Reachable llm ctx query (retrieve_node s)
  | synthesize {s} : Reachable llm ctx query s → Reachable llm ctx query (synthesize_node llm s)
  | action {s} : Reachable llm ctx query s → Reachable llm ctx query (action_node llm s)

/-- Documents and citations populated together or not at all: both empty,
or index-aligned with `srcs[i]` the `{id, source, score}` projection of
`docs[i]`. -/
def pairedInv (docs : List ScoredDocument) (srcs : List SourceRef) : Prop :=
  (docs = [] ∧ srcs = []) ∨
  (srcs.length = docs.length ∧
    ∀ i, ∀ h : i < docs.length, ∀ h' : i < srcs.length,
      (srcs.get ⟨i, h'⟩).id = (docs.get ⟨i, h⟩).id ∧
      (srcs.get ⟨i, h'⟩).source = (docs.get ⟨i, h⟩).source ∧
      (srcs.get ⟨i, h'⟩).score = (docs.get ⟨i, h⟩).score)

/-- The invariant of claim C6, over a state's `retrieved_docs` and
`sources` fields. -/
def docSourcesInv (s : GraphState) : Prop :=
  pairedInv s.retrieved_docs s.sources

/-! ## Concrete inputs used by witnesses and counterexamples -/

/-- A concrete request context. -/
def ctx0 : Ctx := { org_id := "org1", conversation_id := "conv1", tools := [] }

/-- A second concrete request context, differing in `org_id`. -/
def ctx1 : Ctx := { org_id := "org2", conversation_id := "conv2", tools := ["email"] }

/-- Oracle whose router call classifies as `summarize` and whose other
calls return a fixed short answer. -/
def llmSumm : Llm := fun system _ _ =>
  if system == routerSystem then "summarize" else "The summary."

/-- Oracle whose router call classifies as `action` and whose other calls
return a fixed answer. -/
def llmAction : Llm := fun system _ _ =>
  if system == routerSystem then "action" else "Done: the email was sent."

/-- Oracle whose router call classifies as `qa` and whose other calls
return a twelve-word answer. -/
def llm12 : Llm := fun system _ _ =>
  if system == routerSystem then "qa"
  else "one two three four five six seven eight nine ten eleven twelve"

/-- Oracle whose router call classifies as `action` and whose other calls
return an answer containing a double space. -/
def llmBad : Llm := fun system _ _ =>
  if system == routerSystem then "action" else "a  b"

/-- Oracle whose router call classifies as `qa` and whose other calls
return a whitespace-only answer. -/
def llmWs : Llm := fun system _ _ =>
  if system == routerSystem then "qa" else "   "

/-- A provider call that always raises with message `boom`. -/
def pcFail : PCall := fun _ _ _ => .error "boom"

/-! ## Helper lemmas -/

/-- Value of the first mock score. -/
theorem score_doc1_val : score_doc1 = 95 / 100 := by
  rw [score_doc1, Rat.mk'_eq_divInt, Rat.divInt_eq_div]; norm_num

/-- Value of the second mock score. -/
theorem score_doc2_val : score_doc2 = 87 / 100 := by
  rw [score_doc2, Rat.mk'_eq_divInt, Rat.divInt_eq_div]; norm_num

/-- Node projections that the proofs rewrite with. -/
@[simp] theorem retrieve_node_route (s : GraphState) :
    (retrieve_node s).route = s.route := rfl

@[simp] theorem retrieve_node_query (s : GraphState) :
    (retrieve_node s).query = s.query := rfl

@[simp] theorem retrieve_node_metadata (s : GraphState) :
    (retrieve_node s).metadata = s.metadata := rfl

@[simp] theorem retrieve_node_docs (s : GraphState) :
    (retrieve_node s).retrieved_docs = mock_docs := rfl

@[simp] theorem retrieve_node_sources (s : GraphState) :
    (retrieve_node s).sources = mockSources := rfl

@[simp] theorem router_node_query (llm : Llm) (s : GraphState) :
    (router_node llm s).query = s.query := rfl

@[simp] theorem router_node_answer (llm : Llm) (s : GraphState) :
    (router_node llm s).answer = s.answer := rfl

@[simp] theorem initState_query (ctx : Ctx) (q : String) :
    (initState ctx q).query = q := rfl

@[simp] theorem initState_sources (ctx : Ctx) (q : String) :
    (initState ctx q).sources = [] := rfl

@[simp] theorem initState_docs (ctx : Ctx) (q : String) :
    (initState ctx q).retrieved_docs = [] := rfl

@[simp] theorem initState_metadata (ctx : Ctx) (q : String) :
    (initState ctx q).metadata = [] := rfl

@[simp] theorem router_node_docs (llm : Llm) (s : GraphState) :
    (router_node llm s).retrieved_docs = s.retrieved_docs := rfl

@[simp] theorem router_node_sources (llm : Llm) (s : GraphState) :
    (router_node llm s).sources = s.sources := rfl

@[simp] theorem synthesize_node_route (llm : Llm) (s : GraphState) :
    (synthesize_node llm s).route = s.route := rfl

@[simp] theorem synthesize_node_docs (llm : Llm) (s : GraphState) :
    (synthesize_node llm s).retrieved_docs = s.retrieved_docs := rfl

@[simp] theorem synthesize_node_sources (llm : Llm) (s : GraphState) :
    (synthesize_node llm s).sources = s.sources := rfl

@[simp] theorem synthesize_node_metadata (llm : Llm) (s : GraphState) :
    (synthesize_node llm s).metadata = s.metadata := rfl

@[simp] theorem synthesize_node_answer (llm : Llm) (s : GraphState) :
    (synthesize_node llm s).answer =
      llm synthesizeSystem (synthUserPrompt s.retrieved_docs s.query) 500 := rfl

@[simp] theorem action_node_route (llm : Llm) (s : GraphState) :
    (action_node llm s).route = s.route := rfl

@[simp] theorem action_node_docs (llm : Llm) (s : GraphState) :
    (action_node llm s).retrieved_docs = s.retrieved_docs := rfl

@[simp] theorem action_node_sources (llm : Llm) (s : GraphState) :
    (action_node llm s).sources = s.sources := rfl

@[simp] theorem action_node_answer (llm : Llm) (s : GraphState) :
    (action_node llm s).answer = llm actionSystem (actionUserPrompt s.query) 300 := rfl

@[simp] theorem action_node_metadata (llm : Llm) (s : GraphState) :
    (action_node llm s).metadata = setKey s.metadata "action_taken" "simulated" := rfl

/-- Looking up a key just set finds its new value. -/
theorem setKey_lookup (d : Dict) (k v : String) : (setKey d k v).lookup k = some v := by
  induction d with
  | nil => simp [setKey, List.lookup]
  | cons p d ih =>
    obtain ⟨k', v'⟩ := p
    by_cases h : k' = k
    · subst h; simp [setKey, List.lookup]
    · have hb : (k' == k) = false := beq_eq_false_iff_ne.mpr h
      have hb2 : (k == k') = false := beq_eq_false_iff_ne.mpr fun he => h he.symm
      simp [setKey, hb, List.lookup, hb2, ih]

/-- The route chosen by `router_node`: the normalized completion text when
it is one of the three labels, else the default `qa`. -/
theorem router_node_route (llm : Llm) (s : GraphState) :
    (router_node llm s).route =
      (if pyLower (pyStrip (llm routerSystem s.query 50)) = "qa" ∨
          pyLower (pyStrip (llm routerSystem s.query 50)) = "summarize" ∨
          pyLower (pyStrip (llm routerSystem s.query 50)) = "action"
        then pyLower (pyStrip (llm routerSystem s.query 50)) else "qa") := by
  simp only [router_node]
  by_cases h : pyLower (pyStrip (llm routerSystem s.query 50)) = "qa" ∨
      pyLower (pyStrip (llm routerSystem s.query 50)) = "summarize" ∨
      pyLower (pyStrip (llm routerSystem s.query 50)) = "action"
  · have hb : (pyLower (pyStrip (llm routerSystem s.query 50)) == "qa" ||
        pyLower (pyStrip (llm routerSystem s.query 50)) == "summarize" ||
        pyLower (pyStrip (llm routerSystem s.query 50)) == "action") = true := by
      rcases h with h | h | h <;> simp [h]
    simp [hb, h]
  · have hb : (pyLower (pyStrip (llm routerSystem s.query 50)) == "qa" ||
        pyLower (pyStrip (llm routerSystem s.query 50)) == "summarize" ||
        pyLower (pyStrip (llm routerSystem s.query 50)) == "action") = false := by
      push_neg at h
      simp [h.1, h.2.1, h.2.2]
    simp [hb, h]

/-- `router_node` records the chosen route under `metadata["route"]`. -/
theorem router_node_metadata_route (llm : Llm) (s : GraphState) :
    (router_node llm s).metadata.lookup "route" = some (router_node llm s).route := by
  simp only [router_node]
  exact setKey_lookup s.metadata "route" _

/-- Unfolding `spaceJoin` on a cons with a non-empty tail. -/
theorem spaceJoin_cons (w : String) (l : List String) (h : l ≠ []) :
    spaceJoin (w :: l) = w ++ " " ++ spaceJoin l := by
  cases l with
  | nil => exact absurd rfl h
  | cons x xs => rfl

/-- Splitting a word list anywhere and space-joining the two halves
separately agrees with space-joining the whole list. -/
theorem spaceJoin_take_drop : ∀ (n : Nat) (ws : List String),
    ws.take n ≠ [] → ws.drop n ≠ [] →
    spaceJoin (ws.take n) ++ " " ++ spaceJoin (ws.drop n) = spaceJoin ws := by
  intro n ws
  induction ws generalizing n with
  | nil => intro h _; simp at h
  | cons w ws ih =>
    intro h1 h2
    cases n with
    | zero => simp at h1
    | succ m =>
      simp only [List.take_succ_cons, List.drop_succ_cons] at *
      by_cases hm : ws.take m = []
      · have hws : ws ≠ [] := by
          intro he; rw [he] at h2; simp at h2
        have hm0 : ws.drop m = ws := by
          rcases List.take_eq_nil_iff.mp hm with h | h
          · rw [h]; rfl
          · exact absurd h hws
        rw [hm, hm0, spaceJoin_cons w ws hws]
        rfl
      · have hws : ws ≠ [] := by
          intro he; rw [he] at hm; simp at hm
        rw [spaceJoin_cons w (ws.take m) hm, spaceJoin_cons w ws hws, ← ih m hm h2]
        simp [String.append_assoc]

/-- Splitting a character list that is all whitespace yields no words. -/
theorem splitWsAux_whitespace :
    (l : List Char) → (∀ c ∈ l, c.isWhitespace) → splitWsAux l [] = []
  | [], _ => rfl
  | c :: cs, h => by
    have hc : c.isWhitespace := h c (List.mem_cons_self c cs)
    simp only [splitWsAux, hc, if_true, List.isEmpty_nil]
    exact splitWsAux_whitespace cs fun x hx => h x (List.mem_cons_of_mem c hx)

/-- `str.split()` of a whitespace-only (or empty) string is empty. -/
theorem pySplit_whitespace (s : String) (h : ∀ c ∈ s.data, c.isWhitespace) :
    pySplit s = [] := by
  rw [pySplit, splitWsAux_whitespace s.data h]
  rfl

/-- Slice form of `chunksOf5` on a non-empty list: the first five elements,
then the chunks of the rest, matching `words[i:i+5]`. -/
theorem chunksOf5_ne_nil {α : Type} :
    (l : List α) → l ≠ [] → chunksOf5 l = l.take 5 :: chunksOf5 (l.drop 5)
  | [], h => absurd rfl h
  | [_], _ => rfl
  | [_, _], _ => rfl
  | [_, _, _], _ => rfl
  | [_, _, _, _], _ => rfl
  | [_, _, _, _, _], _ => rfl
  | _ :: _ :: _ :: _ :: _ :: _ :: _, _ => rfl

/-- Concatenating the chunks in order gives back the word list. -/
theorem flatten_chunksOf5 {α : Type} (l : List α) : (chunksOf5 l).flatten = l := by
  induction l using chunksOf5.induct with
  | case1 => rfl
  | case2 a b c d e f rest ih => simp [chunksOf5, ih]
  | case3 l h1 h2 => simp [chunksOf5, h1, h2]

/-- Every chunk is non-empty and holds at most five elements. -/
theorem chunksOf5_mem {α : Type} :
    (l : List α) → ∀ g ∈ chunksOf5 l, g ≠ [] ∧ g.length ≤ 5
  | [] => by intro g hg; simp [chunksOf5] at hg
  | x :: xs => by
    rw [chunksOf5_ne_nil _ (by simp)]
    intro g hg
    rcases List.mem_cons.mp hg with h | h
    · subst h
      exact ⟨by simp, List.length_take_le 5 (x :: xs)⟩
    · exact chunksOf5_mem ((x :: xs).drop 5) g h
termination_by l => l.length
decreasing_by simp; omega

/-- Every chunk except possibly the last holds exactly five elements. -/
theorem chunksOf5_dropLast_length {α : Type} :
    (l : List α) → ∀ g ∈ (chunksOf5 l).dropLast, g.length = 5
  | [] => by intro g hg; simp [chunksOf5] at hg
  | x :: xs => by
    rw [chunksOf5_ne_nil _ (by simp)]
    intro g hg
    by_cases hd : (x :: xs).drop 5 = []
    · rw [hd] at hg
      simp [chunksOf5] at hg
    · have hch : chunksOf5 ((x :: xs).drop 5) ≠ [] := by
        rw [chunksOf5_ne_nil _ hd]; simp
      obtain ⟨c, cs, hc⟩ := List.exists_cons_of_ne_nil hch
      rw [hc, List.dropLast_cons₂] at hg
      rcases List.mem_cons.mp hg with h | h
      · subst h
        have hlen : 5 < (x :: xs).length := by
          by_contra hle
          exact hd (List.drop_eq_nil_of_le (by omega))
        simp only [List.length_cons] at hlen
        simp [List.length_take]
        omega
      · rw [← hc] at h
        exact chunksOf5_dropLast_length ((x :: xs).drop 5) g h
termination_by l => l.length
decreasing_by simp; omega

/-- Joining each chunk with spaces and then joining the chunk strings with
spaces is the same as joining all the words with spaces. -/
theorem spaceJoin_chunkWords :
    (ws : List String) → spaceJoin (chunkWords ws) = spaceJoin ws
  | [] => rfl
  | w :: ws => by
    rw [chunkWords, chunksOf5_ne_nil _ (by simp), List.map_cons]
    by_cases hd : (w :: ws).drop 5 = []
    · rw [hd]
      have ht : (w :: ws).take 5 = w :: ws :=
        List.take_of_length_le (by
          have := List.drop_eq_nil_iff.mp hd
          omega)
      rw [show chunksOf5 ([] : List String) = [] from rfl, List.map_nil, ht]
      rfl
    · have hch : chunksOf5 ((w :: ws).drop 5) ≠ [] := by
        rw [chunksOf5_ne_nil _ hd]; simp
      have hmap : (chunksOf5 ((w :: ws).drop 5)).map spaceJoin ≠ [] := by
        simpa using hch
      rw [spaceJoin_cons _ _ hmap]
      rw [show (chunksOf5 ((w :: ws).drop 5)).map spaceJoin
            = chunkWords ((w :: ws).drop 5) from rfl]
      rw [spaceJoin_chunkWords ((w :: ws).drop 5)]
      exact spaceJoin_take_drop 5 (w :: ws) (by simp) hd
termination_by ws => ws.length
decreasing_by simp; omega

/-- The route after `router_node` is always one of the three labels. -/
theorem router_route_cases (llm : Llm) (s : GraphState) :
    (router_node llm s).route = "qa" ∨ (router_node llm s).route = "summarize" ∨
      (router_node llm s).route = "action" := by
  rw [router_node_route]
  by_cases h : pyLower (pyStrip (llm routerSystem s.query 50)) = "qa" ∨
      pyLower (pyStrip (llm routerSystem s.query 50)) = "summarize" ∨
      pyLower (pyStrip (llm routerSystem s.query 50)) = "action"
  · rw [if_pos h]; exact h
  · rw [if_neg h]; left; rfl

/-- Shape of the event stream: the two routing events, the bracketed
retrieval events exactly when the route is `qa` or `summarize`, the
thinking event, the answer chunks, and the final complete event. -/
theorem run_graph_stream_eq (llm : Llm) (ctx : Ctx) (q : String) :
    run_graph_stream llm ctx q =
      [Event.routing "Analyzing your query...",
       Event.route ("Route: " ++ (router_node llm (initState ctx q)).route)]
        ++ (if (router_node llm (initState ctx q)).route == "qa"
              || (router_node llm (initState ctx q)).route == "summarize" then
              [Event.retrieving "Searching knowledge base...", Event.sources mockSources]
            else [])
        ++ [Event.thinking "Generating answer..."]
        ++ (chunkWords (pySplit (streamFinalState llm ctx q).answer)).map Event.answer
        ++ [Event.complete (streamFinalState llm ctx q).answer
              (streamFinalState llm ctx q).metadata] := by
  unfold run_graph_stream streamFinalState
  by_cases h : ((router_node llm (initState ctx q)).route == "qa"
      || (router_node llm (initState ctx q)).route == "summarize") = true
  · simp [h]
  · simp [h]

/-- The event type of an answer chunk. -/
@[simp] theorem eventType_answer (c : String) : eventType (Event.answer c) = "answer" := rfl

/-- Event types of the answer chunks. -/
theorem map_eventType_answer (l : List String) :
    List.map (eventType ∘ Event.answer) l = List.replicate l.length "answer" := by
  induction l with
  | nil => rfl
  | cons x xs ih => simp [eventType, ih, List.replicate_succ]

/-- Answer chunks contribute no `complete`-type event. -/
theorem filter_complete_map_answer (l : List String) :
    (l.map Event.answer).filter (fun e => eventType e == "complete") = [] := by
  induction l with
  | nil => rfl
  | cons x xs ih => simp [eventType, ih]

/-- `answerContents` recovers the chunks from the answer events. -/
theorem answerContents_map_answer (l : List String) :
    answerContents (l.map Event.answer) = l := by
  induction l with
  | nil => rfl
  | cons x xs ih => simp [answerContents] at ih ⊢; exact ih

/-- `answerContents` distributes over concatenation. -/
theorem answerContents_append (a b : List Event) :
    answerContents (a ++ b) = answerContents a ++ answerContents b :=
  List.filterMap_append a b _

/-! ## The claims -/

set_option maxRecDepth 10000

/-- C1: the claim says that whenever the router assigns `route ==
summarize` both entry points run Retrieve before Synthesize, so the final
state's documents and sources come from retrieval.  On the code this fails
in `run_graph`'s LangGraph path: `route_condition` maps `"summarize"`
directly to the `synthesize` node, so no retrieval happens and the final
sources are empty there, while the fallback pipeline and the streaming
path do retrieve (as the spec's transition table demands). -/
theorem C1_summarize_langgraph_skips_retrieve :
    (run_graph true llmSumm ctx0 "please summarize").sources = [] ∧
    (langgraph_pipeline llmSumm (initState ctx0 "please summarize")).retrieved_docs = [] ∧
    (run_graph false llmSumm ctx0 "please summarize").sources = mockSources ∧
    sourcesContents (run_graph_stream llmSumm ctx0 "please summarize") = [mockSources] := by
  decide

/-- C2: the claim says batch and streaming mode agree on
`{answer, sources, metadata}` for every input under the same deterministic
completion behaviour.  On a `summarize` run the fallback batch pipeline
does agree with the stream, but the LangGraph batch path returns empty
`sources` while the stream emits the two mock sources, so the modes
diverge. -/
theorem C2_batch_stream_divergence :
    completeContents (run_graph_stream llmSumm ctx0 "please summarize") =
      [((run_graph false llmSumm ctx0 "please summarize").answer,
        (run_graph false llmSumm ctx0 "please summarize").metadata)] ∧
    sourcesContents (run_graph_stream llmSumm ctx0 "please summarize") =
      [(run_graph false llmSumm ctx0 "please summarize").sources] ∧
    (run_graph true llmSumm ctx0 "please summarize").sources ≠
      (run_graph false llmSumm ctx0 "please summarize").sources := by
  decide

/-- C3: for every input, the stream's event types are, in order: routing,
route, then retrieving and sources exactly when the route is `qa` or
`summarize`, then thinking, then zero or more answer events, and finally
one complete event, which is emitted exactly once and is the last event. -/
theorem C3_stream_event_order (llm : Llm) (ctx : Ctx) (q : String) :
    (run_graph_stream llm ctx q).map eventType =
      ["routing", "route"]
        ++ (if (router_node llm (initState ctx q)).route = "qa"
              ∨ (router_node llm (initState ctx q)).route = "summarize" then
              ["retrieving", "sources"] else [])
        ++ ["thinking"]
        ++ List.replicate
            (chunkWords (pySplit (streamFinalState llm ctx q).answer)).length "answer"
        ++ ["complete"] ∧
    ((run_graph_stream llm ctx q).filter fun e => eventType e == "complete").length = 1 ∧
    (run_graph_stream llm ctx q).getLast? =
      some (Event.complete (streamFinalState llm ctx q).answer
        (streamFinalState llm ctx q).metadata) := by
  rw [run_graph_stream_eq]
  refine ⟨?_, ?_, ?_⟩
  · by_cases h : (router_node llm (initState ctx q)).route = "qa"
        ∨ (router_node llm (initState ctx q)).route = "summarize"
    · rcases h with h | h <;>
        simp [h, eventType, map_eventType_answer]
    · push_neg at h
      simp [h.1, h.2, eventType, map_eventType_answer]
  · by_cases h : (router_node llm (initState ctx q)).route = "qa"
        ∨ (router_node llm (initState ctx q)).route = "summarize"
    · rcases h with h | h <;>
        simp [h, eventType, List.filter_append, filter_complete_map_answer]
    · push_neg at h
      simp [h.1, h.2, eventType, List.filter_append, filter_complete_map_answer]
  · exact List.getLast?_concat _

/-- C4 counterexample: for the claim as stated the round trip must hold for
every non-empty final answer, but when the terminal node's answer is
`"a  b"` (two words separated by a double space) the single answer event
carries `"a b"`, whose space-join differs from the complete event's
content. -/
theorem C4_round_trip_counterexample :
    completeContents (run_graph_stream llmBad ctx0 "do it") =
      [("a  b", [("route", "action"), ("action_taken", "simulated")])] ∧
    answerContents (run_graph_stream llmBad ctx0 "do it") = ["a b"] ∧
    ("a  b" : String) ≠ "" ∧
    spaceJoin (answerContents (run_graph_stream llmBad ctx0 "do it")) ≠ "a  b" := by
  decide

/-- C4 (amended): when the final answer is non-empty and is in normalized
word form (it equals the single-space join of its own whitespace-split
words), the answer events are exactly the five-word groups of the answer
joined by spaces, in left-to-right order (all groups except possibly the
last have exactly five words, none is empty, concatenating the groups in
order gives back the word list), and space-joining all answer-event
contents reproduces the complete event's answer. -/
theorem C4_round_trip_amended (llm : Llm) (ctx : Ctx) (q : String)
    (h1 : (streamFinalState llm ctx q).answer
        = spaceJoin (pySplit (streamFinalState llm ctx q).answer))
    (h2 : (streamFinalState llm ctx q).answer ≠ "") :
    answerContents (run_graph_stream llm ctx q)
      = (chunksOf5 (pySplit (streamFinalState llm ctx q).answer)).map spaceJoin ∧
    spaceJoin (answerContents (run_graph_stream llm ctx q))
      = (streamFinalState llm ctx q).answer ∧
    (chunksOf5 (pySplit (streamFinalState llm ctx q).answer)).flatten
      = pySplit (streamFinalState llm ctx q).answer ∧
    (∀ g ∈ (chunksOf5 (pySplit (streamFinalState llm ctx q).answer)).dropLast,
      g.length = 5) ∧
    (∀ g ∈ chunksOf5 (pySplit (streamFinalState llm ctx q).answer),
      g ≠ [] ∧ g.length ≤ 5) ∧
    answerContents (run_graph_stream llm ctx q) ≠ [] := by
  have hsp : pySplit (streamFinalState llm ctx q).answer ≠ [] := by
    intro h0
    rw [h0] at h1
    exact h2 h1
  have hA : answerContents (run_graph_stream llm ctx q)
      = chunkWords (pySplit (streamFinalState llm ctx q).answer) := by
    rw [run_graph_stream_eq]
    by_cases h : ((router_node llm (initState ctx q)).route == "qa"
        || (router_node llm (initState ctx q)).route == "summarize") = true
    · rw [if_pos h]
      simp only [answerContents_append, answerContents_map_answer]
      simp [answerContents]
    · rw [if_neg h]
      simp only [answerContents_append, answerContents_map_answer]
      simp [answerContents]
  refine ⟨by rw [hA]; rfl, ?_, flatten_chunksOf5 _, chunksOf5_dropLast_length _,
    chunksOf5_mem _, ?_⟩
  · rw [hA, spaceJoin_chunkWords]
    exact h1.symm
  · rw [hA, chunkWords]
    intro hmap
    exact hsp (by
      have := List.map_eq_nil_iff.mp hmap
      rcases List.exists_cons_of_ne_nil hsp with ⟨x, xs, he⟩
      rw [he, chunksOf5_ne_nil _ (by simp)] at this
      exact absurd this (by simp))

/-- C4 witness: a run whose answer has twelve words satisfies the
amended claim's hypotheses, its stream carries exactly three answer
events with word groups of sizes five, five and two, and the round trip
holds. -/
theorem C4_round_trip_witness :
    (streamFinalState llm12 ctx0 "what is AutoBrain?").answer
        = spaceJoin (pySplit (streamFinalState llm12 ctx0 "what is AutoBrain?").answer) ∧
    spaceJoin (answerContents (run_graph_stream llm12 ctx0 "what is AutoBrain?"))
        = (streamFinalState llm12 ctx0 "what is AutoBrain?").answer ∧
    answerContents (run_graph_stream llm12 ctx0 "what is AutoBrain?")
        = ["one two three four five", "six seven eight nine ten", "eleven twelve"] ∧
    (chunksOf5 (pySplit (streamFinalState llm12 ctx0 "what is AutoBrain?").answer)).map
        List.length = [5, 5, 2] := by
  refine ⟨by decide,
    (C4_round_trip_amended llm12 ctx0 "what is AutoBrain?" (by decide) (by decide)).2.1,
    by decide, by decide⟩

/-- C5: for every completion text the router receives, `router_node`
totally computes a route: the text is stripped and lower-cased, a result
matching one of the three labels is kept and anything else defaults to
`qa`, so the resulting route is always one of `qa`, `summarize`, `action`
and `metadata["route"]` equals it. -/
theorem C5_router_never_fails (llm : Llm) (s : GraphState) :
    ((router_node llm s).route = "qa" ∨ (router_node llm s).route = "summarize" ∨
      (router_node llm s).route = "action") ∧
    (router_node llm s).route =
      (if pyLower (pyStrip (llm routerSystem s.query 50)) = "qa" ∨
          pyLower (pyStrip (llm routerSystem s.query 50)) = "summarize" ∨
          pyLower (pyStrip (llm routerSystem s.query 50)) = "action"
        then pyLower (pyStrip (llm routerSystem s.query 50)) else "qa") ∧
    (router_node llm s).metadata.lookup "route" = some (router_node llm s).route :=
  ⟨router_route_cases llm s, router_node_route llm s, router_node_metadata_route llm s⟩

/-- C6: in every state reachable after any sequence of nodes,
`retrieved_docs` and `sources` are populated together or not at all:
either both are empty, or they have equal length and each `sources[i]`
carries the id, source and score of `retrieved_docs[i]`. -/
theorem C6_docs_sources_invariant (llm : Llm) (ctx : Ctx) (q : String) :
    ∀ s, Reachable llm ctx q s → docSourcesInv s := by
  intro s h
  induction h with
  | init => exact Or.inl ⟨rfl, rfl⟩
  | router h ih => exact ih
  | synthesize h ih => exact ih
  | action h ih => exact ih
  | retrieve h ih =>
    right
    refine ⟨rfl, ?_⟩
    intro i hi hi'
    have h2 : i < 2 := by simpa [retrieve_node, mock_docs] using hi
    interval_cases i
    · exact ⟨rfl, rfl, rfl⟩
    · exact ⟨rfl, rfl, rfl⟩

/-- C6 witness: the invariant at a concrete reachable state, the one
after Router then Retrieve in a `qa` run. -/
theorem C6_docs_sources_witness :
    docSourcesInv (retrieve_node (router_node llm12 (initState ctx0 "what is AutoBrain?"))) :=
  C6_docs_sources_invariant llm12 ctx0 "what is AutoBrain?" _
    (Reachable.retrieve (Reachable.router Reachable.init))

/-- C7: whenever the router's normalized completion text is `action`,
both batch variants run only the Action node after the Router: documents
and sources stay empty, `metadata["action_taken"]` is `"simulated"`, and
the answer is the Action node's completion. -/
theorem C7_action_route (llm : Llm) (ctx : Ctx) (q : String)
    (h : pyLower (pyStrip (llm routerSystem q 50)) = "action") :
    (run_graph false llm ctx q).sources = [] ∧
    (run_graph true llm ctx q).sources = [] ∧
    (fallback_pipeline llm (initState ctx q)).retrieved_docs = [] ∧
    (langgraph_pipeline llm (initState ctx q)).retrieved_docs = [] ∧
    (run_graph false llm ctx q).metadata.lookup "action_taken" = some "simulated" ∧
    (run_graph true llm ctx q).metadata.lookup "action_taken" = some "simulated" ∧
    (run_graph false llm ctx q).answer = llm actionSystem (actionUserPrompt q) 300 ∧
    (run_graph true llm ctx q).answer = llm actionSystem (actionUserPrompt q) 300 := by
  have hr : (router_node llm (initState ctx q)).route = "action" := by
    rw [router_node_route]
    simp [initState, h]
  have hfb : fallback_pipeline llm (initState ctx q)
      = action_node llm (router_node llm (initState ctx q)) := by
    unfold fallback_pipeline
    simp [hr]
  have hlg : langgraph_pipeline llm (initState ctx q)
      = action_node llm (router_node llm (initState ctx q)) := by
    unfold langgraph_pipeline route_condition
    simp [hr]
  refine ⟨?_, ?_, ?_, ?_, ?_, ?_, ?_, ?_⟩ <;>
    simp [run_graph, extractResult, hfb, hlg, router_node, setKey_lookup]

/-- C7 witness: the `action` scenario at a concrete oracle whose router
call returns `action`. -/
theorem C7_action_route_witness :
    pyLower (pyStrip (llmAction routerSystem "send an email to the team" 50)) = "action" ∧
    (run_graph false llmAction ctx0 "send an email to the team").sources = [] ∧
    (run_graph false llmAction ctx0 "send an email to the team").metadata.lookup
      "action_taken" = some "simulated" ∧
    (run_graph false llmAction ctx0 "send an email to the team").answer
      = "Done: the email was sent." := by
  have h := C7_action_route llmAction ctx0 "send an email to the team" (by decide)
  exact ⟨by decide, h.1, h.2.2.2.2.1, by decide⟩

/-- C8: when the raw provider call always raises with message `e`, the
call-site try/except converts the failure into the human-readable string
`"Error calling OpenAI: e"` (or the Anthropic variant), which becomes the
run's answer; the run itself completes normally in every route. -/
theorem C8_provider_failure_degrades (ocall acall : PCall) (e : String)
    (ho : ∀ s u n, ocall s u n = .error e) (ha : ∀ s u n, acall s u n = .error e)
    (ctx : Ctx) (q : String) :
    (∀ s u n, openai_completion ocall s u n = "Error calling OpenAI: " ++ e) ∧
    (∀ s u n, anthropic_completion acall s u n = "Error calling Anthropic: " ++ e) ∧
    (run_graph false (llmOf "openai" ocall acall) ctx q).answer
      = "Error calling OpenAI: " ++ e ∧
    (run_graph true (llmOf "openai" ocall acall) ctx q).answer
      = "Error calling OpenAI: " ++ e ∧
    (run_graph false (llmOf "anthropic" ocall acall) ctx q).answer
      = "Error calling Anthropic: " ++ e := by
  have hoc : ∀ s u n, openai_completion ocall s u n = "Error calling OpenAI: " ++ e := by
    intro s u n
    rw [openai_completion, ho]
  have hac : ∀ s u n, anthropic_completion acall s u n
      = "Error calling Anthropic: " ++ e := by
    intro s u n
    rw [anthropic_completion, ha]
  have hO : ∀ s u n, llmOf "openai" ocall acall s u n = "Error calling OpenAI: " ++ e := by
    intro s u n
    simp [llmOf, completion, hoc]
  have hA : ∀ s u n, llmOf "anthropic" ocall acall s u n
      = "Error calling Anthropic: " ++ e := by
    intro s u n
    simp [llmOf, completion, hac]
  have hfb : ∀ (llm : Llm) (err : String), (∀ s u n, llm s u n = err) →
      (fallback_pipeline llm (initState ctx q)).answer = err := by
    intro llm err hllm
    unfold fallback_pipeline
    by_cases hc : ((router_node llm (initState ctx q)).route == "qa"
        || (router_node llm (initState ctx q)).route == "summarize") = true
    · simp [hc, hllm]
    · simp [hc, hllm]
  have hlg : ∀ (llm : Llm) (err : String), (∀ s u n, llm s u n = err) →
      (langgraph_pipeline llm (initState ctx q)).answer = err := by
    intro llm err hllm
    unfold langgraph_pipeline
    rcases router_route_cases llm (initState ctx q) with hr | hr | hr <;>
      simp [route_condition, hr, hllm]
  exact ⟨hoc, hac, hfb _ _ hO, hlg _ _ hO, hfb _ _ hA⟩

/-- C8 witness: with a provider call that always raises `boom`, both batch
variants complete and their answer is the error-describing string. -/
theorem C8_provider_failure_witness :
    (∀ s u n, pcFail s u n = Except.error "boom") ∧
    (run_graph false (llmOf "openai" pcFail pcFail) ctx0 "hello").answer
      = "Error calling OpenAI: boom" ∧
    (run_graph true (llmOf "openai" pcFail pcFail) ctx0 "hello").answer
      = "Error calling OpenAI: boom" ∧
    (run_graph false (llmOf "anthropic" pcFail pcFail) ctx0 "hello").answer
      = "Error calling Anthropic: boom" := by
  have h := C8_provider_failure_degrades pcFail pcFail "boom"
    (fun _ _ _ => rfl) (fun _ _ _ => rfl) ctx0 "hello"
  exact ⟨fun _ _ _ => rfl, h.2.2.1, h.2.2.2.1, h.2.2.2.2⟩

/-- C9: `retrieve_node` ignores the input state entirely (in particular
`org_id` and `query`): any two states receive the identical documents and
sources, namely the two fixed mock documents `doc1` with score `0.95` and
`doc2` with score `0.87`, so retrieval is not scoped by tenant. -/
theorem C9_retrieve_tenant_independent (s1 s2 : GraphState) :
    (retrieve_node s1).retrieved_docs = (retrieve_node s2).retrieved_docs ∧
    (retrieve_node s1).sources = (retrieve_node s2).sources ∧
    (retrieve_node s1).retrieved_docs = mock_docs ∧
    (retrieve_node s1).sources = mockSources ∧
    mock_docs.map (fun d => (d.id, d.score)) = [("doc1", 95 / 100), ("doc2", 87 / 100)] := by
  refine ⟨rfl, rfl, rfl, rfl, ?_⟩
  simp [mock_docs, score_doc1_val, score_doc2_val]

/-- C10: when the terminal node leaves the answer empty or whitespace-only,
the stream has zero answer events and still exactly one complete event,
whose content is that answer string. -/
theorem C10_empty_answer_stream (llm : Llm) (ctx : Ctx) (q : String)
    (h : ∀ c ∈ (streamFinalState llm ctx q).answer.data, c.isWhitespace) :
    answerContents (run_graph_stream llm ctx q) = [] ∧
    completeContents (run_graph_stream llm ctx q) =
      [((streamFinalState llm ctx q).answer, (streamFinalState llm ctx q).metadata)] ∧
    ((run_graph_stream llm ctx q).filter fun e => eventType e == "complete").length = 1 := by
  have hsp : pySplit (streamFinalState llm ctx q).answer = [] := pySplit_whitespace _ h
  rw [run_graph_stream_eq, hsp]
  by_cases hc : ((router_node llm (initState ctx q)).route == "qa"
      || (router_node llm (initState ctx q)).route == "summarize") = true
  · simp [hc, answerContents, completeContents, chunkWords, chunksOf5, eventType]
  · simp [hc, answerContents, completeContents, chunkWords, chunksOf5, eventType]

/-- C10 witness: a run whose synthesized answer is three spaces emits no
answer event and one complete event carrying the three-space answer. -/
theorem C10_empty_answer_witness :
    (∀ c ∈ (streamFinalState llmWs ctx0 "q").answer.data, c.isWhitespace) ∧
    answerContents (run_graph_stream llmWs ctx0 "q") = [] ∧
    completeContents (run_graph_stream llmWs ctx0 "q")
      = [("   ", [("route", "qa")])] := by
  have h := C10_empty_answer_stream llmWs ctx0 "q" (by decide)
  exact ⟨by decide, h.1, by decide⟩

end AutoBrain
